import Mathlib

/-!
Shallow embedding of the CRUD reconcilers of the terraform-provider-jamfpro
repository: the department resource (department_resource.go) and the account
resource (accounts_resource.go).  Remote API calls are modelled as oracles
indexed by the retry-attempt number; the Terraform ResourceData handle is
modelled as an explicit state record; the helper/retry.RetryContext loop is
modelled as a fuel-indexed loop where the fuel stands for the number of
additional attempts the per-operation timeout allows.
-/

/-- A Go error value as the provider distinguishes them: a structured
http_client.APIError carrying a status code, or any other (transport or
fmt.Errorf-created) error carrying only a message. -/
inductive GoError where
  | apiError (code : Nat) (msg : String)
  | generic (msg : String)
deriving DecidableEq

/-- The Error() string of a Go error, used when call sites interpolate an
error with a %v or %s verb. -/
def errString : GoError → String
  | .apiError code msg => "API Error (Code: " ++ toString code ++ "): " ++ msg
  | .generic msg => msg

/-- Result of one body invocation inside retry.RetryContext: a retryable
error keeps the loop going until the timeout, a non-retryable error aborts
it at once. -/
inductive RetryErr where
  | retryable (e : GoError)
  | nonRetryable (e : GoError)

/-- The error retry.RetryContext surfaces when the timeout budget is spent:
a TimeoutError wrapping the last retryable error, which is not itself a
structured APIError. -/
def timeoutWrap (e : GoError) : GoError :=
  .generic ("timeout while waiting for state to become success. last error: " ++ errString e)

/-- Fuel-indexed model of retry.RetryContext.  The body f receives the
attempt number and the loop-carried state; fuel is the number of retries
the timeout still allows after the current attempt. -/
def runRetryAux {σ : Type} (f : Nat → σ → σ × Option RetryErr) :
    Nat → Nat → σ → σ × Option GoError
  | 0, i, s =>
    match f i s with
    | (s1, none) => (s1, none)
    | (s1, some (RetryErr.nonRetryable e)) => (s1, some e)
    | (s1, some (RetryErr.retryable e)) => (s1, some (timeoutWrap e))
  | fuel + 1, i, s =>
    match f i s with
    | (s1, none) => (s1, none)
    | (s1, some (RetryErr.nonRetryable e)) => (s1, some e)
    | (s1, some (RetryErr.retryable _)) => runRetryAux f fuel (i + 1) s1

/-- Run a retry.RetryContext loop from attempt 0 with the given retry
budget. -/
def runRetry {σ : Type} (f : Nat → σ → σ × Option RetryErr) (budget : Nat) (s : σ) :
    σ × Option GoError :=
  runRetryAux f budget 0 s

/-- Accumulate the value of a decimal digit string, failing on the first
non-digit character (helper for strconv.Atoi). -/
def digitsValAux : List Char → Nat → Option Nat
  | [], acc => some acc
  | c :: cs, acc => if c.isDigit then digitsValAux cs (acc * 10 + (c.toNat - 48)) else none

/-- Model of Go strconv.Atoi: an optional sign followed by at least one
decimal digit; anything else is a syntax error. -/
def atoi (s : String) : Option Int :=
  match s.toList with
  | [] => none
  | '+' :: rest =>
    match rest with
    | [] => none
    | _ => (digitsValAux rest 0).map (fun n => (n : Int))
  | '-' :: rest =>
    match rest with
    | [] => none
    | _ => (digitsValAux rest 0).map (fun n => -(n : Int))
  | cs => (digitsValAux cs 0).map (fun n => (n : Int))

/-- A diagnostics list as returned by every CRUD callback; each entry is one
diagnostic rendered to a string. -/
abbrev Diags := List String

/-! ## Department resource (department_resource.go) -/

/-- jamfpro.ResourceDepartment: the typed remote entity, a single Name
field. -/
structure ResourceDepartment where
  name : String
deriving DecidableEq

/-- The Terraform ResourceData for one department: the id set via SetId and
the schema field name. -/
structure DeptState where
  id : String
  name : String
deriving DecidableEq

/-- The slice of the Jamf Pro API client the department callbacks use.
Every call is indexed by the retry attempt on which it is issued, so one
oracle can describe remote behaviour that changes between attempts.
GetDepartmentByID returns none for a nil department pointer with a nil
error. -/
structure DeptAPI where
  createDepartment : Nat → ResourceDepartment → Except GoError String
  getDepartmentByID : Nat → String → Except GoError (Option ResourceDepartment)
  updateDepartmentByID : Nat → String → ResourceDepartment → Except GoError Unit
  updateDepartmentByName : Nat → String → ResourceDepartment → Except GoError Unit
  deleteDepartmentByID : Nat → String → Except GoError Unit
  deleteDepartmentByName : Nat → String → Except GoError Unit

/-- Escape the XML meta characters of a text node, as encoding/xml does. -/
def xmlEscape (s : String) : String :=
  String.join (s.toList.map (fun c =>
    if c = '<' then "&lt;"
    else if c = '>' then "&gt;"
    else if c = '&' then "&amp;"
    else if c = '"' then "&quot;"
    else String.singleton c))

/-- Model of xml.MarshalIndent on jamfpro.ResourceDepartment.  Per the
encoding/xml contract, marshalling a struct whose only field is a string
cannot fail (marshal errors arise only for unsupported kinds such as
channels, functions and maps), so the error branch of the Except is never
taken. -/
def xmlMarshalIndentDepartment (dep : ResourceDepartment) : Except GoError String :=
  Except.ok ("<department>\n  <name>" ++ xmlEscape dep.name ++ "</name>\n</department>")

/-- constructJamfProDepartment: build the remote entity from the
configuration and round it through the XML marshaller, propagating a
marshal failure. -/
def constructJamfProDepartment (d : DeptState) : Except GoError ResourceDepartment :=
  let department : ResourceDepartment := { name := d.name }
  match xmlMarshalIndentDepartment department with
  | .error e =>
    .error (.generic ("failed to marshal Jamf Pro Department " ++ department.name ++
      " to XML: " ++ errString e))
  | .ok _ => .ok department

/-- One attempt of the department Read retry body: fetch by ID, converting
any API error into a retryable error; on success capture the returned
pointer. -/
def deptReadAttempt (api : DeptAPI) (resourceID : String) (i : Nat)
    (s : Option ResourceDepartment) : Option ResourceDepartment × Option RetryErr :=
  match api.getDepartmentByID i resourceID with
  | .error e => (s, some (RetryErr.retryable e))
  | .ok dep? => (dep?, none)

/-- ResourceJamfProDepartmentsRead: fetch by ID under retry, every API error
being retryable; on exhaustion clear the id and emit a diagnostic; on
success confirm the id and copy the name. -/
def ResourceJamfProDepartmentsRead (api : DeptAPI) (budget : Nat) (d : DeptState) :
    DeptState × Diags :=
  let resourceID := d.id
  let r := runRetry (deptReadAttempt api resourceID) budget (none : Option ResourceDepartment)
  match r.2 with
  | some e =>
    ({ d with id := "" },
      ["failed to read Jamf Pro Department with ID " ++ resourceID ++
        " after retries: " ++ errString e])
  | none =>
    match r.1 with
    | some department => ({ d with id := resourceID, name := department.name }, [])
    | none => ({ d with id := "" }, [])

/-- ResourceJamfProDepartmentsCreate: construct, create once with no retry
loop, store the returned id, then run the Read callback to sync state. -/
def ResourceJamfProDepartmentsCreate (api : DeptAPI) (budget : Nat) (d : DeptState) :
    DeptState × Diags :=
  let resourceName := d.name
  match constructJamfProDepartment d with
  | .error e =>
    (d, ["failed to construct Jamf Pro Department " ++ resourceName ++ ": " ++ errString e])
  | .ok department =>
    match api.createDepartment 0 department with
    | .error e =>
      (d, ["failed to create Jamf Pro Department " ++ resourceName ++ ": " ++ errString e])
    | .ok newID =>
      ResourceJamfProDepartmentsRead api budget { d with id := newID }

/-- One attempt of the department Update retry body: update by ID, falling
back on any error to update by name; the combined failure of both is a
retryable error carrying both messages. -/
def deptUpdateAttempt (api : DeptAPI) (resourceID resourceName : String)
    (department : ResourceDepartment) (i : Nat) (s : Unit) : Unit × Option RetryErr :=
  match api.updateDepartmentByID i resourceID department with
  | .ok _ => (s, none)
  | .error apiErr =>
    match api.updateDepartmentByName i resourceName department with
    | .ok _ => (s, none)
    | .error apiErrByName =>
      (s, some (RetryErr.retryable (.generic
        ("failed to update department " ++ resourceName ++ " by ID " ++ resourceID ++
          " and by name due to errors: " ++ errString apiErr ++ ", " ++
          errString apiErrByName))))

/-- ResourceJamfProDepartmentsUpdate: construct, then under retry update by
ID falling back to update by name, the combined failure being retryable; on
success run the Read callback. -/
def ResourceJamfProDepartmentsUpdate (api : DeptAPI) (budget : Nat) (d : DeptState) :
    DeptState × Diags :=
  let resourceID := d.id
  let resourceName := d.name
  match constructJamfProDepartment d with
  | .error e =>
    (d, ["error constructing Jamf Pro Department " ++ resourceName ++ ": " ++ errString e])
  | .ok department =>
    let r := runRetry (deptUpdateAttempt api resourceID resourceName department) budget ()
    match r.2 with
    | some e =>
      (d, ["final attempt to update department " ++ resourceName ++ " failed: " ++ errString e])
    | none => ResourceJamfProDepartmentsRead api budget d

/-- One attempt of the department Delete retry body: delete by ID, falling
back on any error to delete by name; the combined failure of both is a
retryable error carrying both messages. -/
def deptDeleteAttempt (api : DeptAPI) (resourceID resourceName : String) (i : Nat)
    (s : Unit) : Unit × Option RetryErr :=
  match api.deleteDepartmentByID i resourceID with
  | .ok _ => (s, none)
  | .error apiErr =>
    match api.deleteDepartmentByName i resourceName with
    | .ok _ => (s, none)
    | .error apiErrByName =>
      (s, some (RetryErr.retryable (.generic
        ("failed to delete department " ++ resourceName ++ " by ID " ++ resourceID ++
          " and by name due to errors: " ++ errString apiErr ++ ", " ++
          errString apiErrByName))))

/-- ResourceJamfProDepartmentsDelete: under retry delete by ID falling back
to delete by name, the combined failure being retryable; on success clear
the id from state. -/
def ResourceJamfProDepartmentsDelete (api : DeptAPI) (budget : Nat) (d : DeptState) :
    DeptState × Diags :=
  let resourceID := d.id
  let resourceName := d.name
  let r := runRetry (deptDeleteAttempt api resourceID resourceName) budget ()
  match r.2 with
  | some e =>
    (d, ["final attempt to delete department " ++ resourceName ++ " failed: " ++ errString e])
  | none => ({ d with id := "" }, [])

/-! ## Account resource (accounts_resource.go) -/

/-- jamfpro.SharedResourceSite: a site reference with numeric ID and name;
the zero value id 0 and empty name marks an absent site. -/
structure SharedResourceSite where
  id : Int
  name : String
deriving DecidableEq

/-- jamfpro.AccountSubsetLdapServer: the LDAP server reference of an
account. -/
structure AccountSubsetLdapServer where
  id : Int
  name : String
deriving DecidableEq

/-- jamfpro.AccountSubsetPrivileges: the seven privilege string lists of an
account or group. -/
structure AccountSubsetPrivileges where
  jssObjects : List String
  jssSettings : List String
  jssActions : List String
  casperAdmin : List String
  casperRemote : List String
  casperImaging : List String
  recon : List String
deriving DecidableEq

/-- The all-empty privilege set, the Go zero value of
AccountSubsetPrivileges. -/
def emptyPrivileges : AccountSubsetPrivileges :=
  ⟨[], [], [], [], [], [], []⟩

/-- jamfpro.AccountsListSubsetGroups: one group membership of an account as
the API reports it. -/
structure AccountsListSubsetGroups where
  id : Int
  name : String
  site : SharedResourceSite
  privileges : AccountSubsetPrivileges
deriving DecidableEq

/-- jamfpro.ResourceAccount: the typed remote entity for one Jamf Pro
account. -/
structure ResourceAccount where
  name : String
  directoryUser : Bool
  fullName : String
  email : String
  enabled : String
  ldapServer : AccountSubsetLdapServer
  forcePasswordChange : Bool
  accessLevel : String
  password : String
  privilegeSet : String
  site : SharedResourceSite
  groups : List AccountsListSubsetGroups
  privileges : AccountSubsetPrivileges
deriving DecidableEq

/-- One entry of the groups set in the Terraform state of an account, with
its nested single-element site list and per-group privilege lists. -/
structure TFGroup where
  name : String
  id : Int
  site : List SharedResourceSite
  jssObjectsPrivileges : List String
  jssSettingsPrivileges : List String
  jssActionsPrivileges : List String
  casperAdminPrivileges : List String
  casperRemotePrivileges : List String
  casperImagingPrivileges : List String
  reconPrivileges : List String
deriving DecidableEq

/-- The Terraform ResourceData for one account: the id set via SetId plus
every schema field.  The single-element ldap_server and site blocks are
lists, matching the TypeList MaxItems 1 schema; an empty string password is
the schema zero value, so GetOk reports the password as set exactly when it
is non-empty. -/
structure AccountState where
  id : String
  name : String
  directoryUser : Bool
  fullName : String
  email : String
  emailAddress : String
  enabled : String
  ldapServer : List AccountSubsetLdapServer
  forcePasswordChange : Bool
  accessLevel : String
  password : String
  privilegeSet : String
  site : List SharedResourceSite
  groups : List TFGroup
  jssObjectsPrivileges : List String
  jssSettingsPrivileges : List String
  jssActionsPrivileges : List String
  casperAdminPrivileges : List String
  casperRemotePrivileges : List String
  casperImagingPrivileges : List String
  reconPrivileges : List String
deriving DecidableEq

/-- The slice of the Jamf Pro API client the account callbacks use, each
call indexed by the retry attempt on which it is issued.  getAccounts
returns the group listing used to map group names to IDs; createAccount
returns the numeric ID of the created account. -/
structure AccountsAPI where
  getAccounts : Nat → Except GoError (List (String × Int))
  createAccount : Nat → ResourceAccount → Except GoError Int
  getAccountByID : Nat → Int → Except GoError ResourceAccount
  getAccountByName : Nat → String → Except GoError ResourceAccount
  updateAccountByID : Nat → Int → ResourceAccount → Except GoError Unit
  updateAccountByName : Nat → String → ResourceAccount → Except GoError Unit
  deleteAccountByID : Nat → Int → Except GoError Unit
  deleteAccountByName : Nat → String → Except GoError Unit

/-- Look up a group name in the name-to-ID map built from the GetAccounts
listing; a Go map built by iteration lets a later duplicate overwrite an
earlier one, so the last matching entry wins. -/
def groupNameToID (groups : List (String × Int)) (name : String) : Option Int :=
  groups.foldl (fun acc p => if p.1 = name then some p.2 else acc) none

/-- Resolve every configured group against the listing, failing on the
first name the listing does not contain; resolved groups carry only the ID
and name, the other fields staying at their zero values. -/
def resolveGroups (listing : List (String × Int)) (gs : List TFGroup) :
    Except GoError (List AccountsListSubsetGroups) :=
  gs.foldl (fun acc g =>
    match acc with
    | .error e => .error e
    | .ok done =>
      match groupNameToID listing g.name with
      | none => .error (.generic ("group name " ++ g.name ++ " does not exist"))
      | some gid =>
        .ok (done ++ [{ id := gid, name := g.name, site := ⟨0, ""⟩,
                        privileges := emptyPrivileges }])) (.ok [])

/-- constructJamfProAccount: build the remote entity from the
configuration.  The scalar fields, the optional single-element ldap_server
and site blocks, and the top-level privilege lists come straight from the
configuration; the groups are resolved to IDs through a remote GetAccounts
call issued on the given attempt, whose failure the constructor
propagates. -/
def constructJamfProAccount (api : AccountsAPI) (i : Nat) (d : AccountState) :
    Except GoError ResourceAccount :=
  let base : ResourceAccount :=
    { name := d.name
      directoryUser := d.directoryUser
      fullName := d.fullName
      email := d.email
      enabled := d.enabled
      ldapServer :=
        match d.ldapServer with
        | [] => ⟨0, ""⟩
        | l :: _ => ⟨l.id, l.name⟩
      forcePasswordChange := d.forcePasswordChange
      accessLevel := d.accessLevel
      password := d.password
      privilegeSet := d.privilegeSet
      site :=
        match d.site with
        | [] => ⟨0, ""⟩
        | s :: _ => ⟨s.id, s.name⟩
      groups := []
      privileges := emptyPrivileges }
  match api.getAccounts i with
  | .error e => .error e
  | .ok listing =>
    match resolveGroups listing d.groups with
    | .error e => .error e
    | .ok gs =>
      .ok { base with
        groups := gs
        privileges :=
          { jssObjects := d.jssObjectsPrivileges
            jssSettings := d.jssSettingsPrivileges
            jssActions := d.jssActionsPrivileges
            casperAdmin := d.casperAdminPrivileges
            casperRemote := d.casperRemotePrivileges
            casperImaging := d.casperImagingPrivileges
            recon := d.reconPrivileges } }

/-- generateTFDiagsFromHTTPError: one diagnostic whose summary names the
resource (or unknown when the name field is unset) and whose detail renders
the status code for a structured APIError and the raw message otherwise. -/
def generateTFDiagsFromHTTPError (e : GoError) (d : AccountState) (action : String) : Diags :=
  let resourceName := if d.name ≠ "" then d.name else "unknown"
  match e with
  | .apiError code msg =>
    ["Failed to " ++ action ++ " the resource with name: " ++ resourceName ++
      " | API Error (Code: " ++ toString code ++ "): " ++ msg]
  | .generic msg =>
    ["Failed to " ++ action ++ " the resource with name: " ++ resourceName ++ " | " ++ msg]

/-- Map one remote group onto its Terraform state entry: absent site blocks
become the explicit empty list, the privilege lists are copied. -/
def groupToTF (g : AccountsListSubsetGroups) : TFGroup :=
  { name := g.name
    id := g.id
    site := if g.site.id ≠ 0 ∨ g.site.name ≠ "" then [g.site] else []
    jssObjectsPrivileges := g.privileges.jssObjects
    jssSettingsPrivileges := g.privileges.jssSettings
    jssActionsPrivileges := g.privileges.jssActions
    casperAdminPrivileges := g.privileges.casperAdmin
    casperRemotePrivileges := g.privileges.casperRemote
    casperImagingPrivileges := g.privileges.casperImaging
    reconPrivileges := g.privileges.recon }

/-- The state-update block of the account Read callback: copy every fetched
field into state, clearing absent ldap_server and site blocks to explicit
empty lists, copying the password only when the configuration already holds
one, and leaving the id and the email_address field untouched. -/
def updateStateFromAccount (d : AccountState) (account : ResourceAccount) : AccountState :=
  { d with
    name := account.name
    directoryUser := account.directoryUser
    fullName := account.fullName
    email := account.email
    enabled := account.enabled
    ldapServer :=
      if account.ldapServer.id ≠ 0 ∨ account.ldapServer.name ≠ "" then
        [account.ldapServer]
      else []
    forcePasswordChange := account.forcePasswordChange
    accessLevel := account.accessLevel
    password := if d.password ≠ "" then account.password else d.password
    privilegeSet := account.privilegeSet
    site :=
      if account.site.id ≠ 0 ∨ account.site.name ≠ "" then [account.site] else []
    groups := account.groups.map groupToTF
    jssObjectsPrivileges := account.privileges.jssObjects
    jssSettingsPrivileges := account.privileges.jssSettings
    jssActionsPrivileges := account.privileges.jssActions
    casperAdminPrivileges := account.privileges.casperAdmin
    casperRemotePrivileges := account.privileges.casperRemote
    casperImagingPrivileges := account.privileges.casperImaging
    reconPrivileges := account.privileges.recon }

/-- One attempt of the account Read retry body: parse the id
(non-retryable on failure), fetch by ID, a structured APIError being
non-retryable; on any other fetch error fall back to fetch by name, again
with a structured APIError non-retryable and anything else retryable. -/
def accountReadAttempt (api : AccountsAPI) (d : AccountState) (i : Nat)
    (s : Option ResourceAccount) : Option ResourceAccount × Option RetryErr :=
  match atoi d.id with
  | none =>
    (s, some (RetryErr.nonRetryable (.generic
      ("error converting id (" ++ d.id ++ ") to integer: invalid syntax"))))
  | some accountID =>
    match api.getAccountByID i accountID with
    | .ok account => (some account, none)
    | .error e =>
      match e with
      | .apiError code msg =>
        (s, some (RetryErr.nonRetryable (.generic
          ("API Error (Code: " ++ toString code ++ "): " ++ msg))))
      | .generic _ =>
        match api.getAccountByName i d.name with
        | .ok account => (some account, none)
        | .error e2 =>
          match e2 with
          | .apiError code msg =>
            (s, some (RetryErr.nonRetryable (.generic
              ("API Error (Code: " ++ toString code ++ "): " ++ msg))))
          | .generic _ => (s, some (RetryErr.retryable e2))

/-- ResourceJamfProAccountRead: run the read attempt under retry; on
failure surface diagnostics leaving the state untouched; on success copy
the fetched account into state. -/
def ResourceJamfProAccountRead (api : AccountsAPI) (budget : Nat) (d : AccountState) :
    AccountState × Diags :=
  let r := runRetry (accountReadAttempt api d) budget none
  match r.2 with
  | some e => (d, generateTFDiagsFromHTTPError e d "read")
  | none =>
    match r.1 with
    | some account => (updateStateFromAccount d account, [])
    | none => (d, ["nil account dereference"])

/-- One attempt of the account Create retry body: construct the account
(non-retryable on failure) and create it remotely, a structured APIError
being non-retryable and anything else retryable; on success capture the
returned numeric id. -/
def accountCreateAttempt (api : AccountsAPI) (d : AccountState) (i : Nat)
    (s : Option Int) : Option Int × Option RetryErr :=
  match constructJamfProAccount api i d with
  | .error e =>
    (s, some (RetryErr.nonRetryable (.generic
      ("failed to construct the account for terraform create: " ++ errString e))))
  | .ok account =>
    match api.createAccount i account with
    | .error e =>
      match e with
      | .apiError code msg =>
        (s, some (RetryErr.nonRetryable (.generic
          ("API Error (Code: " ++ toString code ++ "): " ++ msg))))
      | .generic _ => (s, some (RetryErr.retryable e))
    | .ok newID => (some newID, none)

/-- One attempt of the state-sync retry loop that Create and Update wrap
around the Read callback: any non-empty read diagnostics become a retryable
error with the given fixed message. -/
def stateSyncAttempt (api : AccountsAPI) (budget : Nat) (msg : String) (_i : Nat)
    (s : AccountState) : AccountState × Option RetryErr :=
  let read := ResourceJamfProAccountRead api budget s
  if read.2.isEmpty then (read.1, none)
  else (read.1, some (RetryErr.retryable (.generic msg)))

/-- ResourceJamfProAccountCreate: under retry construct the account
(non-retryable on failure) and create it remotely, a structured APIError
being non-retryable and anything else retryable; on success store the
returned id, then run the Read callback under its own retry loop, surfacing
a diagnostic when that loop exhausts its budget. -/
def ResourceJamfProAccountCreate (api : AccountsAPI) (budget : Nat) (d : AccountState) :
    AccountState × Diags :=
  let r := runRetry (accountCreateAttempt api d) budget none
  match r.2 with
  | some e => (d, generateTFDiagsFromHTTPError e d "create")
  | none =>
    match r.1 with
    | none => (d, ["nil createdAccount dereference"])
    | some cid =>
      let d1 := { d with id := toString cid }
      let r2 := runRetry
        (stateSyncAttempt api budget "failed to read the created resource") budget d1
      match r2.2 with
      | some e => (r2.1, generateTFDiagsFromHTTPError e r2.1 "update state for")
      | none => (r2.1, [])

/-- One attempt of the account Update retry body: construct the account and
parse the id (both non-retryable on failure), update by ID with a
structured APIError non-retryable, falling back on any other error to
update by name, again APIError non-retryable and anything else retryable. -/
def accountUpdateAttempt (api : AccountsAPI) (d : AccountState) (i : Nat)
    (s : Unit) : Unit × Option RetryErr :=
  match constructJamfProAccount api i d with
  | .error e =>
    (s, some (RetryErr.nonRetryable (.generic
      ("failed to construct the account for terraform update: " ++ errString e))))
  | .ok account =>
    match atoi d.id with
    | none =>
      (s, some (RetryErr.nonRetryable (.generic
        ("error converting id (" ++ d.id ++ ") to integer: invalid syntax"))))
    | some accountID =>
      match api.updateAccountByID i accountID account with
      | .ok _ => (s, none)
      | .error e =>
        match e with
        | .apiError code msg =>
          (s, some (RetryErr.nonRetryable (.generic
            ("API Error (Code: " ++ toString code ++ "): " ++ msg))))
        | .generic _ =>
          match api.updateAccountByName i d.name account with
          | .ok _ => (s, none)
          | .error e2 =>
            match e2 with
            | .apiError code msg =>
              (s, some (RetryErr.nonRetryable (.generic
                ("API Error (Code: " ++ toString code ++ "): " ++ msg))))
            | .generic _ => (s, some (RetryErr.retryable e2))

/-- ResourceJamfProAccountUpdate: run the update attempt under retry; on
failure surface diagnostics leaving the state untouched; on success run the
Read callback under its own retry loop. -/
def ResourceJamfProAccountUpdate (api : AccountsAPI) (budget : Nat) (d : AccountState) :
    AccountState × Diags :=
  let r := runRetry (accountUpdateAttempt api d) budget ()
  match r.2 with
  | some e => (d, generateTFDiagsFromHTTPError e d "update")
  | none =>
    let r2 := runRetry
      (stateSyncAttempt api budget
        "failed to update the Terraform state for the updated resource") budget d
    match r2.2 with
    | some e => (r2.1, generateTFDiagsFromHTTPError e r2.1 "update")
    | none => (r2.1, [])

/-- One attempt of the account Delete retry body: parse the id
(non-retryable on failure) and delete by ID, falling back on any error to
delete by name, whose failure is retryable whatever its kind. -/
def accountDeleteAttempt (api : AccountsAPI) (d : AccountState) (i : Nat)
    (s : Unit) : Unit × Option RetryErr :=
  match atoi d.id with
  | none =>
    (s, some (RetryErr.nonRetryable (.generic "failed to parse dock item ID: invalid syntax")))
  | some accountID =>
    match api.deleteAccountByID i accountID with
    | .ok _ => (s, none)
    | .error _ =>
      match api.deleteAccountByName i d.name with
      | .ok _ => (s, none)
      | .error e2 => (s, some (RetryErr.retryable e2))

/-- ResourceJamfProAccountDelete: run the delete attempt under retry; on
failure surface diagnostics leaving the state untouched; on success clear
the id from state. -/
def ResourceJamfProAccountDelete (api : AccountsAPI) (budget : Nat) (d : AccountState) :
    AccountState × Diags :=
  let r := runRetry (accountDeleteAttempt api d) budget ()
  match r.2 with
  | some e => (d, generateTFDiagsFromHTTPError e d "delete")
  | none => ({ d with id := "" }, [])

/-! ## Retry-loop lemmas -/

/-- A loop whose first attempt succeeds returns that success whatever the
budget. -/
theorem runRetry_first_success {σ : Type} (f : Nat → σ → σ × Option RetryErr) (s t : σ)
    (h : f 0 s = (t, none)) (b : Nat) : runRetry f b s = (t, none) := by
  cases b <;> simp [runRetry, runRetryAux, h]

/-- A loop whose first attempt returns a non-retryable error aborts with
that error whatever the budget. -/
theorem runRetry_first_nonRetryable {σ : Type} (f : Nat → σ → σ × Option RetryErr)
    (s t : σ) (e : GoError) (h : f 0 s = (t, some (RetryErr.nonRetryable e))) (b : Nat) :
    runRetry f b s = (t, some e) := by
  cases b <;> simp [runRetry, runRetryAux, h]

/-- A loop whose every attempt keeps the state and returns a retryable
error spends all its fuel and surfaces the timeout wrapping of the last
error. -/
theorem runRetryAux_const_retryable {σ : Type} (f : Nat → σ → σ × Option RetryErr)
    (g : Nat → GoError) (h : ∀ i s, f i s = (s, some (RetryErr.retryable (g i)))) :
    ∀ fuel i s, runRetryAux f fuel i s = (s, some (timeoutWrap (g (i + fuel)))) := by
  intro fuel
  induction fuel with
  | zero => intro i s; simp [runRetryAux, h]
  | succ n ih =>
    intro i s
    have h2 := ih (i + 1) s
    rw [show i + 1 + n = i + (n + 1) by omega] at h2
    calc runRetryAux f (n + 1) i s = runRetryAux f n (i + 1) s := by simp [runRetryAux, h]
    _ = (s, some (timeoutWrap (g (i + (n + 1))))) := h2

/-- runRetry version of runRetryAux_const_retryable. -/
theorem runRetry_const_retryable {σ : Type} (f : Nat → σ → σ × Option RetryErr)
    (g : Nat → GoError) (h : ∀ i s, f i s = (s, some (RetryErr.retryable (g i))))
    (b : Nat) (s : σ) : runRetry f b s = (s, some (timeoutWrap (g b))) := by
  have h2 := runRetryAux_const_retryable f g h b 0 s
  simpa [runRetry] using h2

/-- A loop whose every attempt keeps the state and fails (retryably or not)
ends in some error with the state preserved. -/
theorem runRetryAux_all_fail {σ : Type} (f : Nat → σ → σ × Option RetryErr)
    (h : ∀ i s, ∃ r, f i s = (s, some r)) :
    ∀ fuel i s, ∃ e, runRetryAux f fuel i s = (s, some e) := by
  intro fuel
  induction fuel with
  | zero =>
    intro i s
    obtain ⟨r, hr⟩ := h i s
    cases r with
    | retryable e => exact ⟨timeoutWrap e, by simp [runRetryAux, hr]⟩
    | nonRetryable e => exact ⟨e, by simp [runRetryAux, hr]⟩
  | succ n ih =>
    intro i s
    obtain ⟨r, hr⟩ := h i s
    cases r with
    | retryable e =>
      obtain ⟨e2, he2⟩ := ih (i + 1) s
      exact ⟨e2, by simp [runRetryAux, hr, he2]⟩
    | nonRetryable e => exact ⟨e, by simp [runRetryAux, hr]⟩

/-- runRetry version of runRetryAux_all_fail. -/
theorem runRetry_all_fail {σ : Type} (f : Nat → σ → σ × Option RetryErr)
    (h : ∀ i s, ∃ r, f i s = (s, some r)) (b : Nat) (s : σ) :
    ∃ e, runRetry f b s = (s, some e) :=
  runRetryAux_all_fail f h b 0 s

/-- A loop that fails retryably below attempt k and succeeds at attempt k
returns that success whenever the fuel reaches k. -/
theorem runRetryAux_reach {σ : Type} (f : Nat → σ → σ × Option RetryErr)
    (g : Nat → GoError) (k : Nat) (s t : σ)
    (hlt : ∀ i, i < k → f i s = (s, some (RetryErr.retryable (g i))))
    (hk : f k s = (t, none)) :
    ∀ fuel i, i ≤ k → k ≤ i + fuel → runRetryAux f fuel i s = (t, none) := by
  intro fuel
  induction fuel with
  | zero =>
    intro i h1 h2
    have h3 : i = k := by omega
    subst h3
    simp [runRetryAux, hk]
  | succ n ih =>
    intro i h1 h2
    rcases Nat.lt_or_ge i k with hik | hik
    · have hb := hlt i hik
      have h3 := ih (i + 1) (by omega) (by omega)
      simp [runRetryAux, hb, h3]
    · have h3 : i = k := by omega
      subst h3
      simp [runRetryAux, hk]

/-- runRetry version of runRetryAux_reach. -/
theorem runRetry_reach {σ : Type} (f : Nat → σ → σ × Option RetryErr)
    (g : Nat → GoError) (k : Nat) (s t : σ)
    (hlt : ∀ i, i < k → f i s = (s, some (RetryErr.retryable (g i))))
    (hk : f k s = (t, none)) (b : Nat) (hb : k ≤ b) : runRetry f b s = (t, none) :=
  runRetryAux_reach f g k s t hlt hk b 0 (by omega) (by omega)

/-- A loop that fails retryably below attempt k times out when its fuel
runs out before reaching k, surfacing the timeout wrapping of the error of
its last attempt. -/
theorem runRetryAux_exhaust {σ : Type} (f : Nat → σ → σ × Option RetryErr)
    (g : Nat → GoError) (k : Nat) (s : σ)
    (hlt : ∀ i, i < k → f i s = (s, some (RetryErr.retryable (g i)))) :
    ∀ fuel i, i + fuel < k → runRetryAux f fuel i s = (s, some (timeoutWrap (g (i + fuel)))) := by
  intro fuel
  induction fuel with
  | zero => intro i hi; simp [runRetryAux, hlt i (by omega)]
  | succ n ih =>
    intro i hi
    have hb := hlt i (by omega)
    have h2 := ih (i + 1) (by omega)
    rw [show i + 1 + n = i + (n + 1) by omega] at h2
    simp [runRetryAux, hb, h2]

/-- runRetry version of runRetryAux_exhaust. -/
theorem runRetry_exhaust {σ : Type} (f : Nat → σ → σ × Option RetryErr)
    (g : Nat → GoError) (k : Nat) (s : σ)
    (hlt : ∀ i, i < k → f i s = (s, some (RetryErr.retryable (g i))))
    (b : Nat) (hb : b < k) : runRetry f b s = (s, some (timeoutWrap (g b))) := by
  have h2 := runRetryAux_exhaust f g k s hlt b 0 (by omega)
  simpa [runRetry] using h2

/-- A predicate preserved by every attempt body is preserved by the whole
loop. -/
theorem runRetryAux_invariant {σ : Type} (P : σ → Prop) (f : Nat → σ → σ × Option RetryErr)
    (hP : ∀ i s, P s → P (f i s).1) :
    ∀ fuel i s, P s → P (runRetryAux f fuel i s).1 := by
  intro fuel
  induction fuel with
  | zero =>
    intro i s hs
    have h1 := hP i s hs
    rcases hf : f i s with ⟨s1, r⟩
    rw [hf] at h1
    cases r with
    | none => simpa [runRetryAux, hf] using h1
    | some re => cases re <;> simpa [runRetryAux, hf] using h1
  | succ n ih =>
    intro i s hs
    have h1 := hP i s hs
    rcases hf : f i s with ⟨s1, r⟩
    rw [hf] at h1
    cases r with
    | none => simpa [runRetryAux, hf] using h1
    | some re =>
      cases re with
      | nonRetryable e => simpa [runRetryAux, hf] using h1
      | retryable e =>
        have h2 := ih (i + 1) s1 h1
        simpa [runRetryAux, hf] using h2

/-- generateTFDiagsFromHTTPError always yields exactly one diagnostic, so
its result is never the empty list. -/
theorem generateTFDiags_ne_nil (e : GoError) (d : AccountState) (a : String) :
    generateTFDiagsFromHTTPError e d a ≠ [] := by
  cases e <;> simp [generateTFDiagsFromHTTPError]

/-! ## Operation-level helper lemmas -/

/-- The account Read callback never touches the id field of state: on
failure the state is returned unchanged and on success
updateStateFromAccount leaves the id alone. -/
theorem accountRead_preserves_id (api : AccountsAPI) (b : Nat) (d : AccountState) :
    (ResourceJamfProAccountRead api b d).1.id = d.id := by
  rcases hr : runRetry (accountReadAttempt api d) b none with ⟨a?, e?⟩
  cases e? with
  | some e => simp [ResourceJamfProAccountRead, hr]
  | none =>
    cases a? with
    | some a => simp [ResourceJamfProAccountRead, hr, updateStateFromAccount]
    | none => simp [ResourceJamfProAccountRead, hr]

/-- When every fetch by ID and every fetch by name fails with a transport
error, the account Read callback leaves any state unchanged and returns a
non-empty diagnostic. -/
theorem accountRead_always_fails (api : AccountsAPI)
    (hById : ∀ i n, ∃ m, api.getAccountByID i n = .error (.generic m))
    (hByName : ∀ i nm, ∃ m, api.getAccountByName i nm = .error (.generic m))
    (b : Nat) (d : AccountState) :
    (ResourceJamfProAccountRead api b d).1 = d ∧
    (ResourceJamfProAccountRead api b d).2 ≠ [] := by
  have hfail : ∀ i s, ∃ r, accountReadAttempt api d i s = (s, some r) := by
    intro i s
    cases hat : atoi d.id with
    | none =>
      exact ⟨RetryErr.nonRetryable (.generic
        ("error converting id (" ++ d.id ++ ") to integer: invalid syntax")),
        by simp [accountReadAttempt, hat]⟩
    | some n =>
      obtain ⟨m1, h1⟩ := hById i n
      obtain ⟨m2, h2⟩ := hByName i d.name
      exact ⟨RetryErr.retryable (.generic m2), by simp [accountReadAttempt, hat, h1, h2]⟩
  obtain ⟨e, he⟩ := runRetry_all_fail _ hfail b none
  refine ⟨by simp [ResourceJamfProAccountRead, he], ?_⟩
  simpa [ResourceJamfProAccountRead, he] using generateTFDiags_ne_nil e d "read"

/-! ## Concrete fixtures for counterexamples and witnesses -/

/-- A department configuration before its first create. -/
def dD0 : DeptState := { id := "", name := "Engineering" }

/-- A department state holding a previously created remote id. -/
def dD1 : DeptState := { id := "42", name := "Engineering" }

/-- A department API client whose every call fails with a transport
error. -/
def apiDFail : DeptAPI :=
  { createDepartment := fun _ _ => .error (.generic "conn refused")
    getDepartmentByID := fun _ _ => .error (.generic "conn refused")
    updateDepartmentByID := fun _ _ _ => .error (.generic "conn refused")
    updateDepartmentByName := fun _ _ _ => .error (.generic "conn refused")
    deleteDepartmentByID := fun _ _ => .error (.generic "conn refused")
    deleteDepartmentByName := fun _ _ => .error (.generic "conn refused") }

/-- An account state holding a previously created remote id. -/
def dState0 : AccountState :=
  { id := "42", name := "Engineering", directoryUser := false, fullName := "",
    email := "", emailAddress := "", enabled := "Enabled", ldapServer := [],
    forcePasswordChange := false, accessLevel := "Full Access", password := "",
    privilegeSet := "Administrator", site := [], groups := [],
    jssObjectsPrivileges := [], jssSettingsPrivileges := [], jssActionsPrivileges := [],
    casperAdminPrivileges := [], casperRemotePrivileges := [], casperImagingPrivileges := [],
    reconPrivileges := [] }

/-- The account state dState0 before its first create, with no id yet. -/
def dW : AccountState := { dState0 with id := "" }

/-- A remote account entity as a fetch could return it, with a password the
local configuration does not hold. -/
def acct0 : ResourceAccount :=
  { name := "Engineering", directoryUser := false, fullName := "Full Name",
    email := "e@x", enabled := "Enabled", ldapServer := ⟨0, ""⟩,
    forcePasswordChange := false, accessLevel := "Full Access", password := "secret",
    privilegeSet := "Administrator", site := ⟨0, ""⟩, groups := [],
    privileges := emptyPrivileges }

/-- An account API client whose every call fails with a transport error. -/
def apiFailAll : AccountsAPI :=
  { getAccounts := fun _ => .error (.generic "conn refused")
    createAccount := fun _ _ => .error (.generic "conn refused")
    getAccountByID := fun _ _ => .error (.generic "conn refused")
    getAccountByName := fun _ _ => .error (.generic "conn refused")
    updateAccountByID := fun _ _ _ => .error (.generic "conn refused")
    updateAccountByName := fun _ _ _ => .error (.generic "conn refused")
    deleteAccountByID := fun _ _ => .error (.generic "conn refused")
    deleteAccountByName := fun _ _ => .error (.generic "conn refused") }

/-- Fetch by ID fails with a structured 404 APIError while fetch by name
would succeed. -/
def apiC1 : AccountsAPI :=
  { apiFailAll with
    getAccountByID := fun _ _ => .error (.apiError 404 "Not Found")
    getAccountByName := fun _ _ => .ok acct0 }

/-- Fetch by ID fails with a transport error while fetch by name
succeeds. -/
def apiW1 : AccountsAPI :=
  { apiFailAll with getAccountByName := fun _ _ => .ok acct0 }

/-- A department create that fails with a transport error on the first call
and would succeed on any later one. -/
def apiC3d : DeptAPI :=
  { apiDFail with
    createDepartment := fun i _ => if i = 0 then .error (.generic "conn refused") else .ok "42" }

/-- An account create that fails with transport errors on attempts 0 and 1
and succeeds on attempt 2, with working reads for the read-back. -/
def apiC3 : AccountsAPI :=
  { apiFailAll with
    getAccounts := fun _ => .ok []
    createAccount := fun i _ => if i < 2 then .error (.generic "conn refused") else .ok 7
    getAccountByID := fun _ _ => .ok acct0 }

/-- An account create that fails at once with a structured 400 APIError. -/
def apiCW : AccountsAPI :=
  { apiFailAll with
    getAccounts := fun _ => .ok []
    createAccount := fun _ _ => .error (.apiError 400 "Bad Request") }

/-- The account the constructor yields from dW (and dState0) against a
client whose GetAccounts listing is empty. -/
def acctW : ResourceAccount :=
  { name := "Engineering", directoryUser := false, fullName := "",
    email := "", enabled := "Enabled", ldapServer := ⟨0, ""⟩,
    forcePasswordChange := false, accessLevel := "Full Access", password := "",
    privilegeSet := "Administrator", site := ⟨0, ""⟩, groups := [],
    privileges := emptyPrivileges }

/-- A department create that succeeds returning id 42 while every
subsequent read fails with a transport error. -/
def apiC6d : DeptAPI :=
  { apiDFail with createDepartment := fun _ _ => .ok "42" }

/-- An account create that succeeds returning id 9 while every read fails
with a transport error. -/
def apiC6a : AccountsAPI :=
  { apiFailAll with getAccounts := fun _ => .ok [], createAccount := fun _ _ => .ok 9 }

/-- A one-group account configuration for the constructor claims. -/
def dC7 : AccountState :=
  { dState0 with groups := [⟨"g", 0, [], [], [], [], [], [], [], []⟩] }

/-- A remote group listing mapping group g to ID 1. -/
def apiC7a : AccountsAPI :=
  { apiFailAll with getAccounts := fun _ => .ok [("g", 1)] }

/-- A remote group listing mapping group g to ID 2. -/
def apiC7b : AccountsAPI :=
  { apiFailAll with getAccounts := fun _ => .ok [("g", 2)] }

/-- The same group listing as apiC7a behind an otherwise different
client. -/
def apiC7c : AccountsAPI :=
  { apiFailAll with
    getAccounts := fun _ => .ok [("g", 1)]
    createAccount := fun _ _ => .ok 0
    getAccountByID := fun _ _ => .ok acct0 }

/-- Fetch by ID succeeds at once, returning acct0. -/
def apiC8 : AccountsAPI :=
  { apiFailAll with getAccountByID := fun _ _ => .ok acct0 }

/-- The account state dState0 with the numeric id 1. -/
def dP8 : AccountState := { dState0 with id := "1" }

/-- An account state whose id does not parse as a decimal integer. -/
def dBad : AccountState := { dState0 with id := "abc" }

/-- Everything fails except the GetAccounts listing, which is empty. -/
def apiC10b : AccountsAPI :=
  { apiFailAll with getAccounts := fun _ => .ok [] }

/-- Account deletes fail by ID but succeed by name. -/
def apiDel : AccountsAPI :=
  { apiFailAll with deleteAccountByName := fun _ _ => .ok () }

/-- Department deletes fail by ID but succeed by name. -/
def apiDdel : DeptAPI :=
  { apiDFail with deleteDepartmentByName := fun _ _ => .ok () }

/-! ## Claim C1 -/

/-- Claim C1 counterexample: with the stored id 42 parsing fine, fetch by
ID failing with a structured 404 APIError and fetch by name ready to
succeed, the account Read does not fall back to the name lookup: it fails
with a diagnostic and leaves the state unchanged, refuting the claim that a
structured API error triggers the name fallback. -/
theorem C1_counterexample :
    apiC1.getAccountByID 0 42 = Except.error (GoError.apiError 404 "Not Found") ∧
    apiC1.getAccountByName 0 "Engineering" = Except.ok acct0 ∧
    atoi dState0.id = some 42 ∧
    (ResourceJamfProAccountRead apiC1 3 dState0).2 ≠ [] ∧
    (ResourceJamfProAccountRead apiC1 3 dState0).1 = dState0 :=
  ⟨rfl, rfl, rfl, by decide, by decide⟩

/-- Claim C1 (amended): in the account Read, a fetch-by-ID failure triggers
the fetch-by-name fallback only when it is a transport (non-structured)
error, in which case a name-lookup success completes the read; a structured
API error from fetch by ID aborts the read at once as non-retryable, with a
diagnostic and the state unchanged, regardless of the name lookup and of
the retry budget. -/
theorem C1_read_fallback_policy :
    (∀ (api : AccountsAPI) (b : Nat) (d : AccountState) (n : Int) (m : String)
        (acct : ResourceAccount),
        atoi d.id = some n →
        api.getAccountByID 0 n = .error (.generic m) →
        api.getAccountByName 0 d.name = .ok acct →
        ResourceJamfProAccountRead api b d = (updateStateFromAccount d acct, [])) ∧
    (∀ (api : AccountsAPI) (b : Nat) (d : AccountState) (n : Int) (code : Nat) (msg : String),
        atoi d.id = some n →
        api.getAccountByID 0 n = .error (.apiError code msg) →
        ResourceJamfProAccountRead api b d =
          (d, generateTFDiagsFromHTTPError
            (.generic ("API Error (Code: " ++ toString code ++ "): " ++ msg)) d "read")) := by
  constructor
  · intro api b d n m acct hid hById hByName
    have hatt : accountReadAttempt api d 0 none = (some acct, none) := by
      simp [accountReadAttempt, hid, hById, hByName]
    have hr := runRetry_first_success _ _ _ hatt b
    simp [ResourceJamfProAccountRead, hr]
  · intro api b d n code msg hid hById
    have hatt : accountReadAttempt api d 0 none =
        (none, some (RetryErr.nonRetryable (.generic
          ("API Error (Code: " ++ toString code ++ "): " ++ msg)))) := by
      simp [accountReadAttempt, hid, hById]
    have hr := runRetry_first_nonRetryable _ _ _ _ hatt b
    simp [ResourceJamfProAccountRead, hr]

/-- Witness for C1_read_fallback_policy at concrete inputs: a transport
error on fetch by ID falls back to the successful name lookup, and a
structured 404 aborts at once. -/
theorem C1_read_fallback_policy_witness :
    ResourceJamfProAccountRead apiW1 2 dState0 = (updateStateFromAccount dState0 acct0, []) ∧
    ResourceJamfProAccountRead apiC1 2 dState0 =
      (dState0, generateTFDiagsFromHTTPError
        (.generic ("API Error (Code: " ++ toString 404 ++ "): " ++ "Not Found"))
        dState0 "read") :=
  ⟨C1_read_fallback_policy.1 apiW1 2 dState0 42 "conn refused" acct0 rfl rfl rfl,
   C1_read_fallback_policy.2 apiC1 2 dState0 42 404 "Not Found" rfl rfl⟩

/-! ## Claim C2 -/

/-- Claim C2 counterexample: with both the ID and the name lookup failing
with transport errors until the budget of two retries is exhausted, the
account Read emits a diagnostic but keeps the stored id 42 instead of
clearing it, refuting the claim that a totally failed Read clears the
identifier for every resource. -/
theorem C2_counterexample :
    (ResourceJamfProAccountRead apiFailAll 2 dState0).1.id = "42" ∧
    (ResourceJamfProAccountRead apiFailAll 2 dState0).2 ≠ [] :=
  ⟨by decide, by decide⟩

/-- Claim C2 (amended): on total failure after retries the department Read
clears the identifier from state and returns a non-empty diagnostic, while
the account Read returns a non-empty diagnostic but leaves the whole state,
identifier included, unchanged. -/
theorem C2_read_total_failure :
    (∀ (api : DeptAPI) (b : Nat) (d : DeptState) (e : Nat → GoError),
        (∀ i, api.getDepartmentByID i d.id = .error (e i)) →
        (ResourceJamfProDepartmentsRead api b d).1.id = "" ∧
        (ResourceJamfProDepartmentsRead api b d).2 ≠ []) ∧
    (∀ (api : AccountsAPI) (b : Nat) (d : AccountState) (n : Int),
        atoi d.id = some n →
        (∀ i, ∃ m, api.getAccountByID i n = .error (.generic m)) →
        (∀ i, ∃ m, api.getAccountByName i d.name = .error (.generic m)) →
        (ResourceJamfProAccountRead api b d).1 = d ∧
        (ResourceJamfProAccountRead api b d).2 ≠ []) := by
  constructor
  · intro api b d e hById
    have hbody : ∀ i s, deptReadAttempt api d.id i s = (s, some (RetryErr.retryable (e i))) := by
      intro i s
      simp [deptReadAttempt, hById i]
    have hr := runRetry_const_retryable _ e hbody b (none : Option ResourceDepartment)
    constructor <;> simp [ResourceJamfProDepartmentsRead, hr]
  · intro api b d n hid hById hByName
    have hfail : ∀ i s, ∃ r, accountReadAttempt api d i s = (s, some r) := by
      intro i s
      obtain ⟨m1, h1⟩ := hById i
      obtain ⟨m2, h2⟩ := hByName i
      exact ⟨RetryErr.retryable (.generic m2), by simp [accountReadAttempt, hid, h1, h2]⟩
    obtain ⟨e, he⟩ := runRetry_all_fail _ hfail b none
    refine ⟨by simp [ResourceJamfProAccountRead, he], ?_⟩
    simpa [ResourceJamfProAccountRead, he] using generateTFDiags_ne_nil e d "read"

/-- Witness for C2_read_total_failure at concrete inputs: the department
Read clears the id while the account Read keeps its state. -/
theorem C2_read_total_failure_witness :
    ((ResourceJamfProDepartmentsRead apiDFail 2 dD1).1.id = "" ∧
      (ResourceJamfProDepartmentsRead apiDFail 2 dD1).2 ≠ []) ∧
    ((ResourceJamfProAccountRead apiFailAll 3 dState0).1 = dState0 ∧
      (ResourceJamfProAccountRead apiFailAll 3 dState0).2 ≠ []) :=
  ⟨C2_read_total_failure.1 apiDFail 2 dD1 (fun _ => .generic "conn refused") (fun _ => rfl),
   C2_read_total_failure.2 apiFailAll 3 dState0 42 rfl
     (fun _ => ⟨"conn refused", rfl⟩) (fun _ => ⟨"conn refused", rfl⟩)⟩

/-! ## Claim C3 -/

/-- Claim C3 counterexample: the department Create calls the remote create
exactly once with no retry loop; with a transport error on that single call
and a remote that would succeed on any retry, Create fails despite a
generous budget, refuting the claim that transport errors during Create are
retried until the timeout for every resource. -/
theorem C3_counterexample :
    apiC3d.createDepartment 0 ⟨"Engineering"⟩ = Except.error (GoError.generic "conn refused") ∧
    apiC3d.createDepartment 1 ⟨"Engineering"⟩ = Except.ok "42" ∧
    (ResourceJamfProDepartmentsCreate apiC3d 5 dD0).1 = dD0 ∧
    (ResourceJamfProDepartmentsCreate apiC3d 5 dD0).2 ≠ [] :=
  ⟨rfl, rfl, by decide, by decide⟩

/-- Claim C3 (amended): in the account Create a structured API error from
the remote create aborts the retry loop at once as non-retryable whatever
the budget, and transport errors are retried, succeeding exactly when the
budget reaches the first successful attempt; the department Create instead
performs a single attempt with no retry, failing immediately on any
error. -/
theorem C3_create_retry_policy :
    (∀ (api : AccountsAPI) (b : Nat) (d : AccountState) (acct : ResourceAccount)
        (code : Nat) (msg : String),
        constructJamfProAccount api 0 d = .ok acct →
        api.createAccount 0 acct = .error (.apiError code msg) →
        ResourceJamfProAccountCreate api b d =
          (d, generateTFDiagsFromHTTPError
            (.generic ("API Error (Code: " ++ toString code ++ "): " ++ msg)) d "create")) ∧
    (∀ (api : AccountsAPI) (d : AccountState) (acct : ResourceAccount) (k : Nat)
        (cid : Int) (g : Nat → String),
        (∀ i, constructJamfProAccount api i d = .ok acct) →
        (∀ i, i < k → api.createAccount i acct = .error (.generic (g i))) →
        api.createAccount k acct = .ok cid →
        (∀ b, b < k → ResourceJamfProAccountCreate api b d =
          (d, generateTFDiagsFromHTTPError (timeoutWrap (.generic (g b))) d "create")) ∧
        (∀ b, k ≤ b → (ResourceJamfProAccountCreate api b d).1.id = toString cid)) ∧
    (∀ (api : DeptAPI) (b : Nat) (d : DeptState) (e : GoError),
        api.createDepartment 0 ⟨d.name⟩ = .error e →
        ResourceJamfProDepartmentsCreate api b d =
          (d, ["failed to create Jamf Pro Department " ++ d.name ++ ": " ++ errString e])) := by
  refine ⟨?_, ?_, ?_⟩
  · intro api b d acct code msg hc hcr
    have hatt : accountCreateAttempt api d 0 none =
        (none, some (RetryErr.nonRetryable (.generic
          ("API Error (Code: " ++ toString code ++ "): " ++ msg)))) := by
      simp [accountCreateAttempt, hc, hcr]
    have hr := runRetry_first_nonRetryable _ _ _ _ hatt b
    simp [ResourceJamfProAccountCreate, hr]
  · intro api d acct k cid g hc hlt hk
    have hblt : ∀ i, i < k → accountCreateAttempt api d i none =
        ((none : Option Int), some (RetryErr.retryable (.generic (g i)))) := by
      intro i hi
      simp [accountCreateAttempt, hc i, hlt i hi]
    have hbk : accountCreateAttempt api d k none = (some cid, none) := by
      simp [accountCreateAttempt, hc k, hk]
    constructor
    · intro b hb
      have hr := runRetry_exhaust _ (fun i => .generic (g i)) k none hblt b hb
      simp [ResourceJamfProAccountCreate, hr]
    · intro b hb
      have hr := runRetry_reach _ (fun i => .generic (g i)) k none (some cid) hblt hbk b hb
      have hinv : ∀ i s, s.id = toString cid →
          ((stateSyncAttempt api b "failed to read the created resource" i s).1).id =
            toString cid := by
        intro i s hs
        by_cases hre : (ResourceJamfProAccountRead api b s).2.isEmpty <;>
          simp [stateSyncAttempt, hre, accountRead_preserves_id, hs]
      have hP : ((runRetry (stateSyncAttempt api b "failed to read the created resource") b
          { d with id := toString cid }).1).id = toString cid :=
        runRetryAux_invariant (fun st => st.id = toString cid) _ hinv b 0
          { d with id := toString cid } rfl
      have hfinal : (ResourceJamfProAccountCreate api b d).1 =
          (runRetry (stateSyncAttempt api b "failed to read the created resource") b
            { d with id := toString cid }).1 := by
        rcases hr2 : runRetry (stateSyncAttempt api b "failed to read the created resource") b
            { d with id := toString cid } with ⟨s2, e2?⟩
        cases e2? <;> simp [ResourceJamfProAccountCreate, hr, hr2]
      rw [hfinal]
      exact hP
  · intro api b d e hcr
    simp [ResourceJamfProDepartmentsCreate, constructJamfProDepartment,
      xmlMarshalIndentDepartment, hcr]

/-- Witness for C3_create_retry_policy at concrete inputs: a structured 400
aborts the account create at once; a transport error succeeding on attempt
2 times out with budget 1 and succeeds with budget 2; the department create
fails on its single attempt. -/
theorem C3_create_retry_policy_witness :
    ResourceJamfProAccountCreate apiCW 9 dW =
      (dW, generateTFDiagsFromHTTPError
        (.generic ("API Error (Code: " ++ toString 400 ++ "): " ++ "Bad Request")) dW "create") ∧
    ResourceJamfProAccountCreate apiC3 1 dW =
      (dW, generateTFDiagsFromHTTPError (timeoutWrap (.generic "conn refused")) dW "create") ∧
    (ResourceJamfProAccountCreate apiC3 2 dW).1.id = toString (7 : Int) ∧
    ResourceJamfProDepartmentsCreate apiC3d 5 dD0 =
      (dD0, ["failed to create Jamf Pro Department " ++ dD0.name ++ ": " ++
        errString (.generic "conn refused")]) :=
  ⟨C3_create_retry_policy.1 apiCW 9 dW acctW 400 "Bad Request" rfl rfl,
   (C3_create_retry_policy.2.1 apiC3 dW acctW 2 7 (fun _ => "conn refused")
     (fun _ => rfl) (fun i hi => by simp [apiC3, hi]) rfl).1 1 (by omega),
   (C3_create_retry_policy.2.1 apiC3 dW acctW 2 7 (fun _ => "conn refused")
     (fun _ => rfl) (fun i hi => by simp [apiC3, hi]) rfl).2 2 (by omega),
   C3_create_retry_policy.2.2 apiC3d 5 dD0 (.generic "conn refused") rfl⟩

/-! ## Claim C4 -/

/-- Claim C4: whenever a Delete invocation returns no diagnostics — which
is exactly when the delete loop succeeded, through the ID path or the name
fallback — the identifier in state has been cleared to the empty string,
for the account and the department resource alike. -/
theorem C4_delete_clears_identifier :
    (∀ (api : AccountsAPI) (b : Nat) (d : AccountState),
        (ResourceJamfProAccountDelete api b d).2 = [] →
        (ResourceJamfProAccountDelete api b d).1.id = "") ∧
    (∀ (api : DeptAPI) (b : Nat) (d : DeptState),
        (ResourceJamfProDepartmentsDelete api b d).2 = [] →
        (ResourceJamfProDepartmentsDelete api b d).1.id = "") := by
  constructor
  · intro api b d h
    rcases hr : runRetry (accountDeleteAttempt api d) b () with ⟨u, e?⟩
    cases e? with
    | some e =>
      have h2 := h
      simp [ResourceJamfProAccountDelete, hr] at h2
      exact absurd h2 (generateTFDiags_ne_nil e d "delete")
    | none => simp [ResourceJamfProAccountDelete, hr]
  · intro api b d h
    rcases hr : runRetry (deptDeleteAttempt api d.id d.name) b () with ⟨u, e?⟩
    cases e? with
    | some e =>
      have h2 := h
      simp [ResourceJamfProDepartmentsDelete, hr] at h2
    | none => simp [ResourceJamfProDepartmentsDelete, hr]

/-- Witness for C4_delete_clears_identifier at concrete inputs where the
delete by ID fails and the name fallback succeeds. -/
theorem C4_delete_clears_identifier_witness :
    (ResourceJamfProAccountDelete apiDel 0 dState0).1.id = "" ∧
    (ResourceJamfProDepartmentsDelete apiDdel 0 dD1).1.id = "" :=
  ⟨C4_delete_clears_identifier.1 apiDel 0 dState0 (by decide),
   C4_delete_clears_identifier.2 apiDdel 0 dD1 (by decide)⟩

/-! ## Claim C5 -/

/-- Claim C5: when every ID-based operation and every name-based fallback
fails, the account and department Update and Delete callbacks return the
state exactly as it was — the identifier is never cleared or modified on
this failure path — together with a non-empty diagnostic. -/
theorem C5_update_delete_failure_frame :
    (∀ (api : AccountsAPI) (b : Nat) (d : AccountState),
        (∀ i n acct, ∃ e, api.updateAccountByID i n acct = .error e) →
        (∀ i nm acct, ∃ e, api.updateAccountByName i nm acct = .error e) →
        (ResourceJamfProAccountUpdate api b d).1 = d ∧
        (ResourceJamfProAccountUpdate api b d).2 ≠ []) ∧
    (∀ (api : DeptAPI) (b : Nat) (d : DeptState),
        (∀ i dep, ∃ e, api.updateDepartmentByID i d.id dep = .error e) →
        (∀ i dep, ∃ e, api.updateDepartmentByName i d.name dep = .error e) →
        (ResourceJamfProDepartmentsUpdate api b d).1 = d ∧
        (ResourceJamfProDepartmentsUpdate api b d).2 ≠ []) ∧
    (∀ (api : AccountsAPI) (b : Nat) (d : AccountState),
        (∀ i n, ∃ e, api.deleteAccountByID i n = .error e) →
        (∀ i nm, ∃ e, api.deleteAccountByName i nm = .error e) →
        (ResourceJamfProAccountDelete api b d).1 = d ∧
        (ResourceJamfProAccountDelete api b d).2 ≠ []) ∧
    (∀ (api : DeptAPI) (b : Nat) (d : DeptState),
        (∀ i, ∃ e, api.deleteDepartmentByID i d.id = .error e) →
        (∀ i, ∃ e, api.deleteDepartmentByName i d.name = .error e) →
        (ResourceJamfProDepartmentsDelete api b d).1 = d ∧
        (ResourceJamfProDepartmentsDelete api b d).2 ≠ []) := by
  refine ⟨?_, ?_, ?_, ?_⟩
  · intro api b d h1 h2
    have hfail : ∀ i s, ∃ r, accountUpdateAttempt api d i s = (s, some r) := by
      intro i s
      cases s
      cases hc : constructJamfProAccount api i d with
      | error e =>
        exact ⟨RetryErr.nonRetryable (.generic
          ("failed to construct the account for terraform update: " ++ errString e)),
          by simp [accountUpdateAttempt, hc]⟩
      | ok acct =>
        cases hat : atoi d.id with
        | none =>
          exact ⟨RetryErr.nonRetryable (.generic
            ("error converting id (" ++ d.id ++ ") to integer: invalid syntax")),
            by simp [accountUpdateAttempt, hc, hat]⟩
        | some n =>
          obtain ⟨e1, he1⟩ := h1 i n acct
          cases e1 with
          | apiError code msg =>
            exact ⟨RetryErr.nonRetryable (.generic
              ("API Error (Code: " ++ toString code ++ "): " ++ msg)),
              by simp [accountUpdateAttempt, hc, hat, he1]⟩
          | generic m =>
            obtain ⟨e2, he2⟩ := h2 i d.name acct
            cases e2 with
            | apiError code msg =>
              exact ⟨RetryErr.nonRetryable (.generic
                ("API Error (Code: " ++ toString code ++ "): " ++ msg)),
                by simp [accountUpdateAttempt, hc, hat, he1, he2]⟩
            | generic m2 =>
              exact ⟨RetryErr.retryable (.generic m2),
                by simp [accountUpdateAttempt, hc, hat, he1, he2]⟩
    obtain ⟨e, he⟩ := runRetry_all_fail _ hfail b ()
    refine ⟨by simp [ResourceJamfProAccountUpdate, he], ?_⟩
    simpa [ResourceJamfProAccountUpdate, he] using generateTFDiags_ne_nil e d "update"
  · intro api b d h1 h2
    have hfail : ∀ i s, ∃ r, deptUpdateAttempt api d.id d.name ⟨d.name⟩ i s = (s, some r) := by
      intro i s
      cases s
      obtain ⟨e1, he1⟩ := h1 i ⟨d.name⟩
      obtain ⟨e2, he2⟩ := h2 i ⟨d.name⟩
      exact ⟨RetryErr.retryable (.generic
        ("failed to update department " ++ d.name ++ " by ID " ++ d.id ++
          " and by name due to errors: " ++ errString e1 ++ ", " ++ errString e2)),
        by simp [deptUpdateAttempt, he1, he2]⟩
    obtain ⟨e, he⟩ := runRetry_all_fail _ hfail b ()
    constructor <;>
      simp [ResourceJamfProDepartmentsUpdate, constructJamfProDepartment,
        xmlMarshalIndentDepartment, he]
  · intro api b d h1 h2
    have hfail : ∀ i s, ∃ r, accountDeleteAttempt api d i s = (s, some r) := by
      intro i s
      cases s
      cases hat : atoi d.id with
      | none =>
        exact ⟨RetryErr.nonRetryable (.generic "failed to parse dock item ID: invalid syntax"),
          by simp [accountDeleteAttempt, hat]⟩
      | some n =>
        obtain ⟨e1, he1⟩ := h1 i n
        obtain ⟨e2, he2⟩ := h2 i d.name
        exact ⟨RetryErr.retryable e2, by simp [accountDeleteAttempt, hat, he1, he2]⟩
    obtain ⟨e, he⟩ := runRetry_all_fail _ hfail b ()
    refine ⟨by simp [ResourceJamfProAccountDelete, he], ?_⟩
    simpa [ResourceJamfProAccountDelete, he] using generateTFDiags_ne_nil e d "delete"
  · intro api b d h1 h2
    have hfail : ∀ i s, ∃ r, deptDeleteAttempt api d.id d.name i s = (s, some r) := by
      intro i s
      cases s
      obtain ⟨e1, he1⟩ := h1 i
      obtain ⟨e2, he2⟩ := h2 i
      exact ⟨RetryErr.retryable (.generic
        ("failed to delete department " ++ d.name ++ " by ID " ++ d.id ++
          " and by name due to errors: " ++ errString e1 ++ ", " ++ errString e2)),
        by simp [deptDeleteAttempt, he1, he2]⟩
    obtain ⟨e, he⟩ := runRetry_all_fail _ hfail b ()
    constructor <;> simp [ResourceJamfProDepartmentsDelete, he]

/-- Witness for C5_update_delete_failure_frame at concrete inputs where
every remote operation fails with a transport error. -/
theorem C5_update_delete_failure_frame_witness :
    ((ResourceJamfProAccountUpdate apiFailAll 1 dState0).1 = dState0 ∧
      (ResourceJamfProAccountUpdate apiFailAll 1 dState0).2 ≠ []) ∧
    ((ResourceJamfProDepartmentsUpdate apiDFail 1 dD1).1 = dD1 ∧
      (ResourceJamfProDepartmentsUpdate apiDFail 1 dD1).2 ≠ []) ∧
    ((ResourceJamfProAccountDelete apiFailAll 1 dState0).1 = dState0 ∧
      (ResourceJamfProAccountDelete apiFailAll 1 dState0).2 ≠ []) ∧
    ((ResourceJamfProDepartmentsDelete apiDFail 1 dD1).1 = dD1 ∧
      (ResourceJamfProDepartmentsDelete apiDFail 1 dD1).2 ≠ []) :=
  ⟨C5_update_delete_failure_frame.1 apiFailAll 1 dState0
     (fun _ _ _ => ⟨.generic "conn refused", rfl⟩) (fun _ _ _ => ⟨.generic "conn refused", rfl⟩),
   C5_update_delete_failure_frame.2.1 apiDFail 1 dD1
     (fun _ _ => ⟨.generic "conn refused", rfl⟩) (fun _ _ => ⟨.generic "conn refused", rfl⟩),
   C5_update_delete_failure_frame.2.2.1 apiFailAll 1 dState0
     (fun _ _ => ⟨.generic "conn refused", rfl⟩) (fun _ _ => ⟨.generic "conn refused", rfl⟩),
   C5_update_delete_failure_frame.2.2.2 apiDFail 1 dD1
     (fun _ => ⟨.generic "conn refused", rfl⟩) (fun _ => ⟨.generic "conn refused", rfl⟩)⟩

/-! ## Claim C6 -/

/-- Claim C6 counterexample: the department create succeeds returning id
42, the read-back then fails after retries, and the department Read failure
handler clears the id — so Create returns a diagnostic with the identifier
reset to the empty string instead of the created one, refuting the claim
that partial success always leaves the identifier set. -/
theorem C6_counterexample :
    apiC6d.createDepartment 0 ⟨"Engineering"⟩ = Except.ok "42" ∧
    (ResourceJamfProDepartmentsCreate apiC6d 2 dD0).2 ≠ [] ∧
    (ResourceJamfProDepartmentsCreate apiC6d 2 dD0).1.id = "" :=
  ⟨rfl, by decide, by decide⟩

/-- Claim C6 (amended): when the remote create succeeds but the read-back
fails after its retries, the account Create keeps the created identifier in
state while returning a diagnostic, but the department Create returns a
diagnostic with the identifier cleared, because the department Read failure
handler resets it. -/
theorem C6_create_readback :
    (∀ (api : AccountsAPI) (b : Nat) (d : AccountState) (acct : ResourceAccount) (cid : Int),
        (∀ i, constructJamfProAccount api i d = .ok acct) →
        (∀ i a, api.createAccount i a = .ok cid) →
        (∀ i n, ∃ m, api.getAccountByID i n = .error (.generic m)) →
        (∀ i nm, ∃ m, api.getAccountByName i nm = .error (.generic m)) →
        (ResourceJamfProAccountCreate api b d).1.id = toString cid ∧
        (ResourceJamfProAccountCreate api b d).2 ≠ []) ∧
    (∀ (api : DeptAPI) (b : Nat) (d : DeptState) (nid : String) (e : Nat → GoError),
        api.createDepartment 0 ⟨d.name⟩ = .ok nid →
        (∀ i, api.getDepartmentByID i nid = .error (e i)) →
        (ResourceJamfProDepartmentsCreate api b d).1.id = "" ∧
        (ResourceJamfProDepartmentsCreate api b d).2 ≠ []) := by
  constructor
  · intro api b d acct cid hc hcr hById hByName
    have hatt : accountCreateAttempt api d 0 none = (some cid, none) := by
      simp [accountCreateAttempt, hc 0, hcr 0 acct]
    have hr := runRetry_first_success _ _ _ hatt b
    have hread := accountRead_always_fails api hById hByName b
    have hsync : ∀ i s, stateSyncAttempt api b "failed to read the created resource" i s =
        (s, some (RetryErr.retryable (.generic "failed to read the created resource"))) := by
      intro i s
      obtain ⟨hs1, hs2⟩ := hread s
      have hempty : (ResourceJamfProAccountRead api b s).2.isEmpty = false := by
        cases hcase : (ResourceJamfProAccountRead api b s).2 with
        | nil => exact absurd hcase hs2
        | cons a l => simp
      simp [stateSyncAttempt, hempty, hs1]
    have hr2 := runRetry_const_retryable _
      (fun _ => GoError.generic "failed to read the created resource") hsync b
      { d with id := toString cid }
    refine ⟨by simp [ResourceJamfProAccountCreate, hr, hr2], ?_⟩
    simpa [ResourceJamfProAccountCreate, hr, hr2] using
      generateTFDiags_ne_nil
        (timeoutWrap (.generic "failed to read the created resource"))
        { d with id := toString cid } "update state for"
  · intro api b d nid e hcr hById
    have hbody : ∀ i s, deptReadAttempt api nid i s = (s, some (RetryErr.retryable (e i))) := by
      intro i s
      simp [deptReadAttempt, hById i]
    have hr := runRetry_const_retryable _ e hbody b (none : Option ResourceDepartment)
    constructor <;>
      simp [ResourceJamfProDepartmentsCreate, constructJamfProDepartment,
        xmlMarshalIndentDepartment, hcr, ResourceJamfProDepartmentsRead, hr]

/-- Witness for C6_create_readback at concrete inputs: the account keeps the
created id 9, the department ends with an empty id. -/
theorem C6_create_readback_witness :
    ((ResourceJamfProAccountCreate apiC6a 2 dW).1.id = toString (9 : Int) ∧
      (ResourceJamfProAccountCreate apiC6a 2 dW).2 ≠ []) ∧
    ((ResourceJamfProDepartmentsCreate apiC6d 2 dD0).1.id = "" ∧
      (ResourceJamfProDepartmentsCreate apiC6d 2 dD0).2 ≠ []) :=
  ⟨C6_create_readback.1 apiC6a 2 dW acctW 9 (fun _ => rfl) (fun _ _ => rfl)
     (fun _ _ => ⟨"conn refused", rfl⟩) (fun _ _ => ⟨"conn refused", rfl⟩),
   C6_create_readback.2 apiC6d 2 dD0 "42" (fun _ => .generic "conn refused") rfl (fun _ => rfl)⟩

/-! ## Claim C7 -/

/-- Claim C7 counterexample: the same one-group configuration run through
the account constructor against two clients that differ only in the remote
group listing yields two different remote entities, refuting the claim that
the constructed entity is a function of the configuration alone. -/
theorem C7_counterexample :
    (constructJamfProAccount apiC7a 0 dC7).toOption.isSome = true ∧
    (constructJamfProAccount apiC7b 0 dC7).toOption.isSome = true ∧
    (constructJamfProAccount apiC7a 0 dC7).toOption ≠
      (constructJamfProAccount apiC7b 0 dC7).toOption :=
  ⟨rfl, rfl, by decide⟩

/-- Claim C7 (amended): the department constructor depends only on the
configured name, and the account constructor depends only on the
configuration together with the remote GetAccounts listing — two runs with
the same configuration and the same listing yield the same entity,
independently of every other part of the client and of the attempt
number. -/
theorem C7_constructor_determinism :
    (∀ d1 d2 : DeptState, d1.name = d2.name →
        constructJamfProDepartment d1 = constructJamfProDepartment d2) ∧
    (∀ (api1 api2 : AccountsAPI) (i j : Nat) (d : AccountState),
        api1.getAccounts i = api2.getAccounts j →
        constructJamfProAccount api1 i d = constructJamfProAccount api2 j d) := by
  constructor
  · intro d1 d2 h
    simp [constructJamfProDepartment, xmlMarshalIndentDepartment, h]
  · intro api1 api2 i j d h
    simp [constructJamfProAccount, h]

/-- Witness for C7_constructor_determinism at concrete inputs: two
department states sharing a name, and two clients sharing the group listing
behind different everything else. -/
theorem C7_constructor_determinism_witness :
    constructJamfProDepartment dD0 =
      constructJamfProDepartment { id := "99", name := "Engineering" } ∧
    constructJamfProAccount apiC7a 0 dC7 = constructJamfProAccount apiC7c 5 dC7 :=
  ⟨C7_constructor_determinism.1 dD0 { id := "99", name := "Engineering" } rfl,
   C7_constructor_determinism.2 apiC7a apiC7c 0 5 dC7 rfl⟩

/-! ## Claim C8 -/

/-- Claim C8 counterexample: a successful account Read against a remote
account whose password is secret leaves the state password empty because
the configuration holds no password, refuting the claim that every field of
the fetched entity is copied into state. -/
theorem C8_counterexample :
    (ResourceJamfProAccountRead apiC8 0 dP8).2 = [] ∧
    acct0.password = "secret" ∧
    dP8.password = "" ∧
    (ResourceJamfProAccountRead apiC8 0 dP8).1.password = "" :=
  ⟨by decide, rfl, rfl, by decide⟩

/-- Claim C8 (amended): on a successful account Read every field of the
fetched entity except the password is copied into state — the password is
copied only when the configuration already holds one — the absent
ldap_server, site and per-group site sub-objects are written as explicit
empty lists rather than left unset, and the id is untouched. -/
theorem C8_read_state_copy :
    ∀ (api : AccountsAPI) (b : Nat) (d : AccountState) (n : Int) (acct : ResourceAccount),
      atoi d.id = some n →
      api.getAccountByID 0 n = .ok acct →
      (ResourceJamfProAccountRead api b d).2 = [] ∧
      (ResourceJamfProAccountRead api b d).1 = updateStateFromAccount d acct ∧
      (ResourceJamfProAccountRead api b d).1.id = d.id ∧
      (ResourceJamfProAccountRead api b d).1.name = acct.name ∧
      (ResourceJamfProAccountRead api b d).1.directoryUser = acct.directoryUser ∧
      (ResourceJamfProAccountRead api b d).1.fullName = acct.fullName ∧
      (ResourceJamfProAccountRead api b d).1.email = acct.email ∧
      (ResourceJamfProAccountRead api b d).1.enabled = acct.enabled ∧
      (ResourceJamfProAccountRead api b d).1.forcePasswordChange = acct.forcePasswordChange ∧
      (ResourceJamfProAccountRead api b d).1.accessLevel = acct.accessLevel ∧
      (ResourceJamfProAccountRead api b d).1.privilegeSet = acct.privilegeSet ∧
      (ResourceJamfProAccountRead api b d).1.ldapServer =
        (if acct.ldapServer.id ≠ 0 ∨ acct.ldapServer.name ≠ "" then [acct.ldapServer] else []) ∧
      (ResourceJamfProAccountRead api b d).1.site =
        (if acct.site.id ≠ 0 ∨ acct.site.name ≠ "" then [acct.site] else []) ∧
      (ResourceJamfProAccountRead api b d).1.groups = acct.groups.map groupToTF ∧
      (∀ g : AccountsListSubsetGroups, (groupToTF g).site =
        (if g.site.id ≠ 0 ∨ g.site.name ≠ "" then [g.site] else [])) ∧
      (d.password ≠ "" → (ResourceJamfProAccountRead api b d).1.password = acct.password) ∧
      (d.password = "" → (ResourceJamfProAccountRead api b d).1.password = "") ∧
      (ResourceJamfProAccountRead api b d).1.jssObjectsPrivileges = acct.privileges.jssObjects ∧
      (ResourceJamfProAccountRead api b d).1.jssSettingsPrivileges = acct.privileges.jssSettings ∧
      (ResourceJamfProAccountRead api b d).1.jssActionsPrivileges = acct.privileges.jssActions ∧
      (ResourceJamfProAccountRead api b d).1.casperAdminPrivileges = acct.privileges.casperAdmin ∧
      (ResourceJamfProAccountRead api b d).1.casperRemotePrivileges = acct.privileges.casperRemote ∧
      (ResourceJamfProAccountRead api b d).1.casperImagingPrivileges =
        acct.privileges.casperImaging ∧
      (ResourceJamfProAccountRead api b d).1.reconPrivileges = acct.privileges.recon := by
  intro api b d n acct hid hfetch
  have hatt : accountReadAttempt api d 0 none = (some acct, none) := by
    simp [accountReadAttempt, hid, hfetch]
  have hr := runRetry_first_success _ _ _ hatt b
  have hmain : ResourceJamfProAccountRead api b d = (updateStateFromAccount d acct, []) := by
    simp [ResourceJamfProAccountRead, hr]
  rw [hmain]
  simp [updateStateFromAccount, groupToTF]
  refine ⟨fun h1 h2 => absurd h2 h1, fun h2 => by simp [h2]⟩

/-- Witness for C8_read_state_copy at concrete inputs. -/
theorem C8_read_state_copy_witness :
    (ResourceJamfProAccountRead apiC8 0 dP8).2 = [] ∧
    (ResourceJamfProAccountRead apiC8 0 dP8).1 = updateStateFromAccount dP8 acct0 :=
  ⟨(C8_read_state_copy apiC8 0 dP8 1 acct0 rfl rfl).1,
   (C8_read_state_copy apiC8 0 dP8 1 acct0 rfl rfl).2.1⟩

/-! ## Claim C9 -/

/-- Claim C9: the department constructor never fails — XML marshalling of
the single string-field department struct cannot error, so for every
configuration the constructor returns the entity carrying the configured
name, and the construction-failure branches of the department Create and
Update callbacks are unreachable. -/
theorem C9_department_constructor_never_fails :
    ∀ d : DeptState, constructJamfProDepartment d = Except.ok { name := d.name } :=
  fun _ => rfl

/-! ## Claim C10 -/

/-- Claim C10 counterexample: the account Update with the unparseable id
abc behaves differently under two clients that differ only in the remote
GetAccounts listing, because the constructor issues that remote call before
the id parse — refuting the claim that Update with an unparseable id fails
before any remote API call is made. -/
theorem C10_counterexample :
    atoi dBad.id = none ∧
    (ResourceJamfProAccountUpdate apiFailAll 1 dBad).2 ≠
      (ResourceJamfProAccountUpdate apiC10b 1 dBad).2 :=
  ⟨rfl, by decide⟩

/-- Claim C10 (amended): the account Read and Delete with an unparseable
stored id fail non-retryably with their outcome independent of the remote
client and of the budget — hence before any remote call — leaving the state
unchanged and returning a diagnostic; the account Update also fails
non-retryably with the state unchanged and a diagnostic, but only after the
constructor has issued its remote GetAccounts lookup. -/
theorem C10_unparseable_id :
    (∀ (api1 api2 : AccountsAPI) (b1 b2 : Nat) (d : AccountState),
        atoi d.id = none →
        ResourceJamfProAccountRead api1 b1 d = ResourceJamfProAccountRead api2 b2 d ∧
        (ResourceJamfProAccountRead api1 b1 d).1 = d ∧
        (ResourceJamfProAccountRead api1 b1 d).2 ≠ []) ∧
    (∀ (api1 api2 : AccountsAPI) (b1 b2 : Nat) (d : AccountState),
        atoi d.id = none →
        ResourceJamfProAccountDelete api1 b1 d = ResourceJamfProAccountDelete api2 b2 d ∧
        (ResourceJamfProAccountDelete api1 b1 d).1 = d ∧
        (ResourceJamfProAccountDelete api1 b1 d).2 ≠ []) ∧
    (∀ (api : AccountsAPI) (b : Nat) (d : AccountState),
        atoi d.id = none →
        (ResourceJamfProAccountUpdate api b d).1 = d ∧
        (ResourceJamfProAccountUpdate api b d).2 ≠ []) := by
  refine ⟨?_, ?_, ?_⟩
  · intro api1 api2 b1 b2 d hid
    have hread : ∀ (api : AccountsAPI) (b : Nat),
        ResourceJamfProAccountRead api b d =
          (d, generateTFDiagsFromHTTPError
            (.generic ("error converting id (" ++ d.id ++ ") to integer: invalid syntax"))
            d "read") := by
      intro api b
      have hatt : accountReadAttempt api d 0 none =
          (none, some (RetryErr.nonRetryable (.generic
            ("error converting id (" ++ d.id ++ ") to integer: invalid syntax")))) := by
        simp [accountReadAttempt, hid]
      have hr := runRetry_first_nonRetryable _ _ _ _ hatt b
      simp [ResourceJamfProAccountRead, hr]
    refine ⟨by rw [hread api1 b1, hread api2 b2], by rw [hread api1 b1], ?_⟩
    rw [hread api1 b1]
    simpa using generateTFDiags_ne_nil
      (.generic ("error converting id (" ++ d.id ++ ") to integer: invalid syntax")) d "read"
  · intro api1 api2 b1 b2 d hid
    have hdel : ∀ (api : AccountsAPI) (b : Nat),
        ResourceJamfProAccountDelete api b d =
          (d, generateTFDiagsFromHTTPError
            (.generic "failed to parse dock item ID: invalid syntax") d "delete") := by
      intro api b
      have hatt : accountDeleteAttempt api d 0 () =
          ((), some (RetryErr.nonRetryable (.generic
            "failed to parse dock item ID: invalid syntax"))) := by
        simp [accountDeleteAttempt, hid]
      have hr := runRetry_first_nonRetryable _ _ _ _ hatt b
      simp [ResourceJamfProAccountDelete, hr]
    refine ⟨by rw [hdel api1 b1, hdel api2 b2], by rw [hdel api1 b1], ?_⟩
    rw [hdel api1 b1]
    simpa using generateTFDiags_ne_nil
      (.generic "failed to parse dock item ID: invalid syntax") d "delete"
  · intro api b d hid
    have hfail : ∀ i s, ∃ r, accountUpdateAttempt api d i s = (s, some r) := by
      intro i s
      cases s
      cases hc : constructJamfProAccount api i d with
      | error e =>
        exact ⟨RetryErr.nonRetryable (.generic
          ("failed to construct the account for terraform update: " ++ errString e)),
          by simp [accountUpdateAttempt, hc]⟩
      | ok acct =>
        exact ⟨RetryErr.nonRetryable (.generic
          ("error converting id (" ++ d.id ++ ") to integer: invalid syntax")),
          by simp [accountUpdateAttempt, hc, hid]⟩
    obtain ⟨e, he⟩ := runRetry_all_fail _ hfail b ()
    refine ⟨by simp [ResourceJamfProAccountUpdate, he], ?_⟩
    simpa [ResourceJamfProAccountUpdate, he] using generateTFDiags_ne_nil e d "update"

/-- Witness for C10_unparseable_id at concrete inputs with the id abc. -/
theorem C10_unparseable_id_witness :
    (ResourceJamfProAccountRead apiFailAll 1 dBad = ResourceJamfProAccountRead apiC10b 3 dBad ∧
      (ResourceJamfProAccountRead apiFailAll 1 dBad).1 = dBad ∧
      (ResourceJamfProAccountRead apiFailAll 1 dBad).2 ≠ []) ∧
    (ResourceJamfProAccountDelete apiFailAll 1 dBad = ResourceJamfProAccountDelete apiC10b 3 dBad ∧
      (ResourceJamfProAccountDelete apiFailAll 1 dBad).1 = dBad ∧
      (ResourceJamfProAccountDelete apiFailAll 1 dBad).2 ≠ []) ∧
    ((ResourceJamfProAccountUpdate apiC10b 1 dBad).1 = dBad ∧
      (ResourceJamfProAccountUpdate apiC10b 1 dBad).2 ≠ []) :=
  ⟨C10_unparseable_id.1 apiFailAll apiC10b 1 3 dBad rfl,
   C10_unparseable_id.2.1 apiFailAll apiC10b 1 3 dBad rfl,
   C10_unparseable_id.2.2 apiC10b 1 dBad rfl⟩
